import Mathlib

/-!
Shallow embedding of the admin analytics query layer
(`admin_api/queries.py` together with the table declarations of
`admin_models.py` and the `Segment` enum of `admin_api/schemas.py`).

Tables are lists of row records; timestamps are naturals; the SQL queries
of `queries.py` become list computations.  SQL specifics that matter are
modelled explicitly:

* `LIKE` / `ILIKE` patterns (`%` any sequence, `_` one character,
  `ILIKE` case-insensitive) via `likeMatch`;
* `COUNT(DISTINCT col)` via `filterMap` + `dedup`;
* `col IN (subquery)` / `col NOT IN (subquery)` under SQL three-valued
  logic collapsed to the Boolean a WHERE clause keeps: a NULL column never
  satisfies `IN`; `NOT IN` over an *empty* subquery is true even for a
  NULL column, otherwise a NULL column fails the clause;
* JSONB access `payload[k].astext` via `jget` (missing payload, missing
  key and JSON null all give SQL NULL);
* `ORDER BY` via `List.insertionSort` (a deterministic refinement of the
  unspecified tie order of SQL).
-/

/-- A JSONB object as observed through `[key].astext`: a key maps to a
text value or to JSON null. -/
abbrev JsonObj := List (String × Option String)

/-- Row of table `users` (`admin_models.py`, class `User`). -/
structure UserRow where
  id : Nat
  created_at : Nat
  install_id_hash : Option String
  google_sub : Option String
  credits_balance : Int
  merged_into_user_id : Option Nat
  last_seen_at : Option Nat
deriving DecidableEq

/-- Row of table `credit_ledger` (`admin_models.py`, class `CreditLedger`). -/
structure CreditRow where
  id : Nat
  user_id : Nat
  type : String
  delta : Int
  ref_type : Option String
  ref_id : Option String
  created_at : Nat
deriving DecidableEq

/-- Row of table `iap_transactions` (`admin_models.py`, class `IapTransaction`). -/
structure IapRow where
  id : Nat
  user_id : Nat
  store : String
  product_id : Option String
  purchase_token : Option String
  status : String
  raw_payload : Option JsonObj
  created_at : Nat
  verified_at : Option Nat
deriving DecidableEq

/-- Row of table `event_log` (`admin_models.py`, class `EventLog`). -/
structure EventRow where
  id : Nat
  created_at : Nat
  trace_id : Option String
  user_id : Option Nat
  job_id : Option String
  event : String
  payload : Option JsonObj
deriving DecidableEq

/-- The relational store the queries read. -/
structure Store where
  users : List UserRow
  credit_ledger : List CreditRow
  iap_transactions : List IapRow
  event_log : List EventRow

/-- The `Segment` enum of `admin_api/schemas.py`. -/
inductive Segment where
  | all
  | paying
  | non_paying
deriving DecidableEq

/-- SQL LIKE pattern matching over characters: `%` matches any sequence,
`_` matches exactly one character, anything else matches itself. -/
def likeMatch : List Char → List Char → Bool
  | [], cs => cs.isEmpty
  | p :: ps, cs =>
    if p = '%' then
      (List.range (cs.length + 1)).any (fun n => likeMatch ps (cs.drop n))
    else
      match cs with
      | [] => false
      | c :: cs' => (if p = '_' then true else p == c) && likeMatch ps cs'

/-- SQL `LIKE` (case-sensitive). -/
def sqlLike (pat s : String) : Bool :=
  likeMatch pat.toList s.toList

/-- SQL `ILIKE` (case-insensitive `LIKE`). -/
def sqlIlike (pat s : String) : Bool :=
  likeMatch (pat.toList.map Char.toLower) (s.toList.map Char.toLower)

/-- JSONB projection `payload[key].astext`: SQL NULL (`none`) when the
payload is NULL, the key is missing, or the value is JSON null. -/
def jget (payload : Option JsonObj) (key : String) : Option String :=
  match payload with
  | none => none
  | some obj =>
    match obj.lookup key with
    | none => none
    | some v => v

/-- Membership of the half-open window `[lo, hi)` on `created_at`. -/
def in_window (lo hi t : Nat) : Bool :=
  decide (lo ≤ t) && decide (t < hi)

/-- `queries.py::FUNNEL_STEPS`. -/
def FUNNEL_STEPS : List String :=
  ["upload_started", "face_analysis_success", "llm_core_generation_success",
   "llm_image_prompt_success", "image_generation_success"]

/-- `queries.py::JOB_STARTED_EVENTS`. -/
def JOB_STARTED_EVENTS : List String := ["generate_requested", "upload_started"]

/-- `queries.py::JOB_SUCCEEDED_EVENTS`. -/
def JOB_SUCCEEDED_EVENTS : List String := ["job_succeeded", "image_generation_success"]

/-- `queries.py::JOB_FAILED_EVENTS`. -/
def JOB_FAILED_EVENTS : List String :=
  ["job_failed", "image_generation_failed", "llm_generation_failed"]

/-- `queries.py::paying_user_ids_subquery`: `UNION` (which deduplicates) of
user ids of verified IAP transactions and of credit-ledger entries whose
type matches `LIKE 'topup_%'` with a strictly positive delta. -/
def paying_user_ids_subquery (s : Store) : List Nat :=
  (((s.iap_transactions.filter (fun t => t.status == "verified")).map (fun t => t.user_id))
    ++ ((s.credit_ledger.filter
          (fun c => sqlLike "topup_%" c.type && decide (0 < c.delta))).map
        (fun c => c.user_id))).dedup

/-- WHERE-clause value of `col IN (subquery)` for a nullable column: a NULL
column never passes (empty subquery gives FALSE, otherwise NULL). -/
def inSql (uid : Option Nat) (ids : List Nat) : Bool :=
  match uid with
  | none => false
  | some v => ids.contains v

/-- WHERE-clause value of `col NOT IN (subquery)`: over an empty subquery it
is TRUE even for NULL; otherwise a NULL column gives NULL (kept out by
WHERE) and a non-null column passes iff it is not in the subquery. -/
def notInSql (uid : Option Nat) (ids : List Nat) : Bool :=
  if ids.isEmpty then true
  else
    match uid with
    | none => false
    | some v => !(ids.contains v)

/-- `queries.py::segment_clause`: no clause for `all`, membership of the
paying-id subquery for `paying`, negated membership for `non_paying`. -/
def segment_clause (seg : Segment) (ids : List Nat) : Option (Option Nat → Bool) :=
  match seg with
  | Segment.all => none
  | Segment.paying => some (fun uid => inSql uid ids)
  | Segment.non_paying => some (fun uid => notInSql uid ids)

/-- `queries.py::apply_filters` restricted to the one optional clause the
metric statements use: a missing clause filters nothing. -/
def apply_filter (clause : Option (Option Nat → Bool)) (uid : Option Nat) : Bool :=
  match clause with
  | none => true
  | some f => f uid

/-- `new_users_stmt` of `queries.py::get_overview_metrics`: count of User
rows created in the window, segment-filtered on `User.id`. -/
def new_users_count (s : Store) (lo hi : Nat) (seg : Segment) : Nat :=
  (s.users.filter
    (fun u => in_window lo hi u.created_at
      && apply_filter (segment_clause seg (paying_user_ids_subquery s)) (some u.id))).length

/-- The distinct non-null user ids of in-window event rows passing the
segment clause (`active_users_stmt` before `COUNT`). -/
def active_user_ids (s : Store) (lo hi : Nat) (seg : Segment) : List Nat :=
  ((s.event_log.filter
      (fun e => in_window lo hi e.created_at && e.user_id.isSome
        && apply_filter (segment_clause seg (paying_user_ids_subquery s)) e.user_id)).filterMap
    (fun e => e.user_id)).dedup

/-- `active_users_stmt` of `queries.py::get_overview_metrics`. -/
def active_users_count (s : Store) (lo hi : Nat) (seg : Segment) : Nat :=
  (active_user_ids s lo hi seg).length

/-- `paying_active_stmt` of `queries.py::get_overview_metrics`: the active
statement with an explicit `Segment.paying` clause, whatever segment was
requested. -/
def paying_active_users_count (s : Store) (lo hi : Nat) : Nat :=
  active_users_count s lo hi Segment.paying

/-- Shared shape of the three `jobs_*` statements of
`queries.py::get_overview_metrics`: plain row count (no DISTINCT, no
null-user filter) of in-window rows whose event is in a fixed name list,
segment-filtered on `EventLog.user_id`. -/
def job_event_count (s : Store) (lo hi : Nat) (seg : Segment) (names : List String) : Nat :=
  (s.event_log.filter
    (fun e => in_window lo hi e.created_at && names.contains e.event
      && apply_filter (segment_clause seg (paying_user_ids_subquery s)) e.user_id)).length

/-- `jobs_started_stmt` of `queries.py::get_overview_metrics`. -/
def jobs_started_count (s : Store) (lo hi : Nat) (seg : Segment) : Nat :=
  job_event_count s lo hi seg JOB_STARTED_EVENTS

/-- `jobs_succeeded_stmt` of `queries.py::get_overview_metrics`. -/
def jobs_succeeded_count (s : Store) (lo hi : Nat) (seg : Segment) : Nat :=
  job_event_count s lo hi seg JOB_SUCCEEDED_EVENTS

/-- `jobs_failed_stmt` of `queries.py::get_overview_metrics`. -/
def jobs_failed_count (s : Store) (lo hi : Nat) (seg : Segment) : Nat :=
  job_event_count s lo hi seg JOB_FAILED_EVENTS

/-- The record `queries.py::get_overview_metrics` returns. -/
structure Overview where
  new_users : Nat
  active_users : Nat
  jobs_started : Nat
  jobs_succeeded : Nat
  jobs_failed : Nat
  conversion_to_pay : Rat
deriving DecidableEq

/-- `queries.py::get_overview_metrics`: the six metrics; the conversion
branches exactly as the Python `if/elif` chain does. -/
def get_overview_metrics (s : Store) (lo hi : Nat) (seg : Segment) : Overview :=
  let active := active_users_count s lo hi seg
  { new_users := new_users_count s lo hi seg
    active_users := active
    jobs_started := jobs_started_count s lo hi seg
    jobs_succeeded := jobs_succeeded_count s lo hi seg
    jobs_failed := jobs_failed_count s lo hi seg
    conversion_to_pay :=
      if active = 0 then 0
      else if seg = Segment.all then
        (paying_active_users_count s lo hi : Rat) / (active : Rat)
      else if seg = Segment.paying then 1
      else 0 }

/-- Distinct-user count of one funnel event in the window, segment-filtered
(the per-event value of `counts_stmt` in `queries.py::get_funnel`; the
grouped query gives exactly this for each step name, and absent groups
default to 0). -/
def funnel_count (s : Store) (lo hi : Nat) (seg : Segment) (ev : String) : Nat :=
  ((s.event_log.filter
      (fun e => in_window lo hi e.created_at && e.event == ev && e.user_id.isSome
        && apply_filter (segment_clause seg (paying_user_ids_subquery s)) e.user_id)).filterMap
    (fun e => e.user_id)).dedup.length

/-- One returned funnel step of `queries.py::get_funnel`. -/
structure FunnelStep where
  event : String
  count : Nat
  conversion_from_prev : Rat
deriving DecidableEq

/-- The step loop of `queries.py::get_funnel`: `previous_count` starts as
`None` (conversion 1.0), a zero previous count gives conversion 0.0, and
otherwise conversion is current over previous. -/
def funnel_walk (cnt : String → Nat) : List String → Option Nat → List FunnelStep
  | [], _ => []
  | ev :: rest, previous_count =>
    let count := cnt ev
    let conversion : Rat :=
      match previous_count with
      | none => 1
      | some 0 => 0
      | some p => (count : Rat) / (p : Rat)
    { event := ev, count := count, conversion_from_prev := conversion }
      :: funnel_walk cnt rest (some count)

/-- `queries.py::get_funnel`. -/
def get_funnel (s : Store) (lo hi : Nat) (seg : Segment) : List FunnelStep :=
  funnel_walk (funnel_count s lo hi seg) FUNNEL_STEPS none

/-- The user record `queries.py` builds for `get_users` / `get_user_detail`
items: the row's fields plus the derived `paying` flag (the SQL `CASE` on
membership of the paying-id subquery; `User.id` is never NULL). -/
structure UserSummary where
  id : Nat
  created_at : Nat
  install_id_hash : Option String
  google_sub : Option String
  credits_balance : Int
  merged_into_user_id : Option Nat
  last_seen_at : Option Nat
  paying : Bool
deriving DecidableEq

/-- Decoration of a user row with the derived paying flag. -/
def user_summary (paying_ids : List Nat) (u : UserRow) : UserSummary :=
  { id := u.id
    created_at := u.created_at
    install_id_hash := u.install_id_hash
    google_sub := u.google_sub
    credits_balance := u.credits_balance
    merged_into_user_id := u.merged_into_user_id
    last_seen_at := u.last_seen_at
    paying := paying_ids.contains u.id }

/-- `queries.py::get_users`: segment filter on `User.id`, then the optional
free-text filter (ILIKE on the two identity hashes, OR exact id equality
when the query is purely numeric; an absent or empty query filters
nothing), total before pagination, then `ORDER BY created_at DESC`,
`OFFSET`, `LIMIT`. -/
def get_users (s : Store) (seg : Segment) (query : Option String)
    (limit offset : Nat) : Nat × List UserSummary :=
  let paying_ids := paying_user_ids_subquery s
  let base := s.users.filter
    (fun u => apply_filter (segment_clause seg paying_ids) (some u.id))
  let filtered :=
    match query with
    | none => base
    | some q =>
      if q = "" then base
      else
        base.filter (fun u =>
          u.install_id_hash.any (fun h => sqlIlike ("%" ++ q ++ "%") h)
          || u.google_sub.any (fun g => sqlIlike ("%" ++ q ++ "%") g)
          || (match q.toNat? with
              | some n => u.id == n
              | none => false))
  let ordered := List.insertionSort (fun x y => y.created_at ≤ x.created_at) filtered
  (filtered.length, ((ordered.drop offset).take limit).map (user_summary paying_ids))

/-- `queries.py::get_user_detail`: first row with the requested id (the
primary key), decorated with the paying flag; `None` when absent. -/
def get_user_detail (s : Store) (user_id : Nat) : Option UserSummary :=
  (s.users.find? (fun u => u.id == user_id)).map
    (user_summary (paying_user_ids_subquery s))

/-- `queries.py::get_user_events`: events of one user, optionally window-,
trace- and job-filtered (a `None`/empty-string filter is skipped, as the
Python truthiness checks do), total before pagination, then
`ORDER BY created_at DESC`, `OFFSET`, `LIMIT`. -/
def get_user_events (s : Store) (user_id : Nat) (lo hi : Option Nat)
    (trace_id job_id : Option String) (limit offset : Nat) : Nat × List EventRow :=
  let f0 := s.event_log.filter (fun e => e.user_id == some user_id)
  let f1 := match lo with
    | none => f0
    | some a => f0.filter (fun e => decide (a ≤ e.created_at))
  let f2 := match hi with
    | none => f1
    | some b => f1.filter (fun e => decide (e.created_at < b))
  let f3 := match trace_id with
    | none => f2
    | some t => if t = "" then f2 else f2.filter (fun e => e.trace_id == some t)
  let f4 := match job_id with
    | none => f3
    | some j => if j = "" then f3 else f3.filter (fun e => e.job_id == some j)
  let ordered := List.insertionSort (fun x y => y.created_at ≤ x.created_at) f4
  (f4.length, (ordered.drop offset).take limit)

/-- `queries.py::get_user_credits`: one user's ledger entries, optionally
window-filtered, `ORDER BY created_at DESC`. -/
def get_user_credits (s : Store) (user_id : Nat) (lo hi : Option Nat) : List CreditRow :=
  let f0 := s.credit_ledger.filter (fun c => c.user_id == user_id)
  let f1 := match lo with
    | none => f0
    | some a => f0.filter (fun c => decide (a ≤ c.created_at))
  let f2 := match hi with
    | none => f1
    | some b => f1.filter (fun c => decide (c.created_at < b))
  List.insertionSort (fun x y => y.created_at ≤ x.created_at) f2

/-- `queries.py::get_user_iap`: one user's IAP transactions, optionally
window-filtered, `ORDER BY created_at DESC`. -/
def get_user_iap (s : Store) (user_id : Nat) (lo hi : Option Nat) : List IapRow :=
  let f0 := s.iap_transactions.filter (fun t => t.user_id == user_id)
  let f1 := match lo with
    | none => f0
    | some a => f0.filter (fun t => decide (a ≤ t.created_at))
  let f2 := match hi with
    | none => f1
    | some b => f1.filter (fun t => decide (t.created_at < b))
  List.insertionSort (fun x y => y.created_at ≤ x.created_at) f2

/-- `queries.py::get_trace_events`: all events of one trace,
`ORDER BY created_at ASC`. -/
def get_trace_events (s : Store) (trace_id : String) : List EventRow :=
  List.insertionSort (fun x y => x.created_at ≤ y.created_at)
    (s.event_log.filter (fun e => e.trace_id == some trace_id))

/-- `queries.py::get_job_events`: all events of one job,
`ORDER BY created_at ASC`. -/
def get_job_events (s : Store) (job_id : String) : List EventRow :=
  List.insertionSort (fun x y => x.created_at ≤ y.created_at)
    (s.event_log.filter (fun e => e.job_id == some job_id))

/-- The qualification predicate of `queries.py::get_errors`: event name
`ILIKE '%failed%'`, or a non-null `payload->>error_type`, or a non-null
`payload->>error_message`. -/
def is_error_event (e : EventRow) : Bool :=
  sqlIlike "%failed%" e.event
    || (jget e.payload "error_type").isSome
    || (jget e.payload "error_message").isSome

/-- The in-window qualifying rows of `queries.py::get_errors` (the shared
WHERE clause of its grouped statement and of its total statement). -/
def error_rows (s : Store) (lo hi : Nat) : List EventRow :=
  s.event_log.filter (fun e => in_window lo hi e.created_at && is_error_event e)

/-- The `GROUP BY` key of `queries.py::get_errors`. -/
def errKey (e : EventRow) : String × Option String × Option String :=
  (e.event, jget e.payload "error_type", jget e.payload "error_message")

/-- One row of the grouped statement of `queries.py::get_errors`. -/
structure ErrorGroup where
  event : String
  error_type : Option String
  error_message : Option String
  count : Nat
  sample_trace_id : Option String
  sample_job_id : Option String
deriving DecidableEq

/-- The key triple of a returned error group. -/
def group_key (g : ErrorGroup) : String × Option String × Option String :=
  (g.event, g.error_type, g.error_message)

/-- One output group of `queries.py::get_errors` for a key triple: the
count of the qualifying rows with that key and the `MIN` samples (SQL
`MIN` ignores NULLs). -/
def mk_error_group (rows : List EventRow)
    (k : String × Option String × Option String) : ErrorGroup :=
  let grp := rows.filter (fun e => decide (errKey e = k))
  { event := k.1
    error_type := k.2.1
    error_message := k.2.2
    count := grp.length
    sample_trace_id := (grp.filterMap (fun e => e.trace_id)).min?
    sample_job_id := (grp.filterMap (fun e => e.job_id)).min? }

/-- The grouped statement of `queries.py::get_errors` before `ORDER BY` and
`LIMIT`: one group per distinct key triple among the qualifying rows. -/
def error_groups_all (s : Store) (lo hi : Nat) : List ErrorGroup :=
  (((error_rows s lo hi).map errKey).dedup).map (mk_error_group (error_rows s lo hi))

/-- The groups ordered by descending count (`ORDER BY count DESC`; ties in
SQL order arbitrarily, determinized here by a stable insertion sort). -/
def error_groups_sorted (s : Store) (lo hi : Nat) : List ErrorGroup :=
  List.insertionSort (fun g1 g2 => g2.count ≤ g1.count) (error_groups_all s lo hi)

/-- `queries.py::get_errors`: the total number of qualifying rows (computed
by its own unlimited statement) and the top `limit` groups. -/
def get_errors (s : Store) (lo hi limit : Nat) : Nat × List ErrorGroup :=
  ((error_rows s lo hi).length, (error_groups_sorted s lo hi).take limit)

/-! ### Helper lemmas -/

/-- Splitting a filtered count by a second Boolean predicate. -/
theorem length_filter_partition {α : Type} (l : List α) (w p : α → Bool) :
    (l.filter (fun x => w x && p x)).length
      + (l.filter (fun x => w x && !(p x))).length
      = (l.filter w).length := by
  induction l with
  | nil => simp
  | cons a t ih =>
    by_cases hw : w a = true
    · by_cases hp : p a = true
      · simp [List.filter_cons, hw, hp, ih]
        omega
      · simp [List.filter_cons, hw, hp, Bool.eq_false_iff.mpr hp, ih]
        omega
    · simp [List.filter_cons, Bool.eq_false_iff.mpr hw, hw, ih]

/-- Deduplicated length is monotone under list inclusion. -/
theorem dedup_length_le_of_subset {α : Type} [DecidableEq α] {l₁ l₂ : List α}
    (h : l₁ ⊆ l₂) : l₁.dedup.length ≤ l₂.dedup.length := by
  rw [← List.card_toFinset, ← List.card_toFinset]
  exact Finset.card_le_card (fun a ha => by
    rw [List.mem_toFinset] at ha ⊢
    exact h ha)

/-- `NOT IN` on a never-null column is plain non-membership, also over an
empty subquery. -/
theorem notInSql_some (v : Nat) (ids : List Nat) :
    notInSql (some v) ids = !(ids.contains v) := by
  cases ids with
  | nil => simp [notInSql]
  | cons a t => simp [notInSql]

/-- An insertion sort by a descending numeric key is pairwise descending. -/
theorem pairwise_sort_desc {α : Type} (key : α → Nat) (l : List α) :
    (List.insertionSort (fun x y => key y ≤ key x) l).Pairwise
      (fun x y => key y ≤ key x) := by
  haveI : IsTotal α (fun x y => key y ≤ key x) := ⟨fun a b => le_total (key b) (key a)⟩
  haveI : IsTrans α (fun x y => key y ≤ key x) :=
    ⟨fun a b c h1 h2 => le_trans h2 h1⟩
  exact List.sorted_insertionSort _ l

/-- An insertion sort by an ascending numeric key is pairwise ascending. -/
theorem pairwise_sort_asc {α : Type} (key : α → Nat) (l : List α) :
    (List.insertionSort (fun x y => key x ≤ key y) l).Pairwise
      (fun x y => key x ≤ key y) := by
  haveI : IsTotal α (fun x y => key x ≤ key y) := ⟨fun a b => le_total (key a) (key b)⟩
  haveI : IsTrans α (fun x y => key x ≤ key y) :=
    ⟨fun a b c h1 h2 => le_trans h1 h2⟩
  exact List.sorted_insertionSort _ l

/-- A page (`drop` then `take`) of a pairwise-ordered list stays ordered. -/
theorem pairwise_page {α : Type} {R : α → α → Prop} {l : List α}
    (h : l.Pairwise R) (off lim : Nat) : ((l.drop off).take lim).Pairwise R :=
  List.Pairwise.sublist ((List.take_sublist lim _).trans (List.drop_sublist off l)) h

/-- A trailing `%` matches any remaining characters. -/
theorem likeMatch_pct_nil (cs : List Char) : likeMatch ['%'] cs = true := by
  simp only [likeMatch, if_pos]
  rw [List.any_eq_true]
  exact ⟨cs.length, by simp [List.mem_range], by simp⟩

/-- A leading `%` matches iff the rest of the pattern matches some suffix. -/
theorem likeMatch_pct (ps : List Char) (cs : List Char) :
    likeMatch ('%' :: ps) cs = true
      ↔ ∃ n, n ≤ cs.length ∧ likeMatch ps (cs.drop n) = true := by
  simp only [likeMatch, if_pos]
  rw [List.any_eq_true]
  constructor
  · rintro ⟨n, hn, h⟩
    rw [List.mem_range, Nat.lt_succ_iff] at hn
    exact ⟨n, hn, h⟩
  · rintro ⟨n, hn, h⟩
    exact ⟨n, by rw [List.mem_range, Nat.lt_succ_iff]; exact hn, h⟩

/-- The literal tail `failed%` matches iff the characters start with
`failed`. -/
theorem likeMatch_failed_tail (cs : List Char) :
    likeMatch ('f' :: 'a' :: 'i' :: 'l' :: 'e' :: 'd' :: '%' :: []) cs = true
      ↔ ['f','a','i','l','e','d'] <+: cs := by
  rcases cs with _ | ⟨a, _ | ⟨b, _ | ⟨c, _ | ⟨d, _ | ⟨e, _ | ⟨f, rest⟩⟩⟩⟩⟩⟩ <;>
    simp [likeMatch, likeMatch_pct_nil, List.cons_prefix_cons, and_assoc]
  exact fun _ _ _ _ _ _ => ⟨rest.length, by omega, le_refl _⟩

/-- `ILIKE '%failed%'` holds iff `failed` is an infix of the lower-cased
event name. -/
theorem sqlIlike_failed (ev : String) :
    sqlIlike "%failed%" ev = true
      ↔ "failed".toList <:+: ev.toList.map Char.toLower := by
  have hp : "%failed%".toList.map Char.toLower
      = '%' :: 'f' :: 'a' :: 'i' :: 'l' :: 'e' :: 'd' :: '%' :: [] := by decide
  have hf : "failed".toList = ['f','a','i','l','e','d'] := rfl
  unfold sqlIlike
  rw [hp, hf, likeMatch_pct]
  constructor
  · rintro ⟨n, _, h⟩
    have hpre := (likeMatch_failed_tail _).mp h
    exact hpre.isInfix.trans (List.drop_suffix n _).isInfix
  · intro h
    rcases List.infix_iff_prefix_suffix.mp h with ⟨t, hpt, u, hu⟩
    refine ⟨u.length, ?_, (likeMatch_failed_tail _).mpr ?_⟩
    · rw [← hu, List.length_append]
      omega
    · rw [← hu, List.drop_left]
      exact hpt

/-- `LIKE 'topup_%'` holds iff the string starts with `topup` and has at
least one further character (`_` is a single-character wildcard). -/
theorem sqlLike_topup (t : String) :
    sqlLike "topup_%" t = true
      ↔ ("topup".toList <+: t.toList ∧ 6 ≤ t.toList.length) := by
  have hp : "topup_%".toList = 't' :: 'o' :: 'p' :: 'u' :: 'p' :: '_' :: '%' :: [] := rfl
  have ht : "topup".toList = ['t','o','p','u','p'] := rfl
  unfold sqlLike
  rw [hp, ht]
  generalize t.toList = cs
  rcases cs with _ | ⟨a, _ | ⟨b, _ | ⟨c, _ | ⟨d, _ | ⟨e, _ | ⟨f, rest⟩⟩⟩⟩⟩⟩ <;>
    simp [likeMatch, likeMatch_pct_nil, List.cons_prefix_cons, and_assoc]
  exact fun _ _ _ _ _ => ⟨rest.length, by omega, le_refl _⟩

/-- `in_window` unfolded. -/
theorem in_window_iff (lo hi t : Nat) :
    in_window lo hi t = true ↔ (lo ≤ t ∧ t < hi) := by
  simp [in_window]

/-- The conversion field of the overview record, by definition. -/
theorem overview_conversion_def (s : Store) (lo hi : Nat) (seg : Segment) :
    (get_overview_metrics s lo hi seg).conversion_to_pay
      = (if active_users_count s lo hi seg = 0 then 0
         else if seg = Segment.all then
           (paying_active_users_count s lo hi : Rat)
             / (active_users_count s lo hi seg : Rat)
         else if seg = Segment.paying then 1 else 0) := rfl

/-- The active-users field of the overview record, by definition. -/
theorem overview_active_def (s : Store) (lo hi : Nat) (seg : Segment) :
    (get_overview_metrics s lo hi seg).active_users = active_users_count s lo hi seg := rfl

/-- The paying active users are among all active users. -/
theorem paying_active_le_active (s : Store) (lo hi : Nat) :
    paying_active_users_count s lo hi ≤ active_users_count s lo hi Segment.all := by
  unfold paying_active_users_count active_users_count active_user_ids
  apply dedup_length_le_of_subset
  intro x hx
  rw [List.mem_filterMap] at hx ⊢
  obtain ⟨e, he, hex⟩ := hx
  rw [List.mem_filter] at he
  refine ⟨e, ?_, hex⟩
  rw [List.mem_filter]
  refine ⟨he.1, ?_⟩
  have h2 := he.2
  rw [Bool.and_eq_true, Bool.and_eq_true] at h2
  simp only [segment_clause, apply_filter, Bool.and_eq_true, Bool.and_true]
  exact h2.1

/-- C1: `conversion_to_pay` is 0.0 when the segment-filtered active count
is 0, else 1.0 for segment `paying`, 0.0 for `non_paying`, and for `all`
the number of distinct in-window paying active users over the number of
all distinct in-window active users; hence it always lies in `[0, 1]`. -/
theorem conversion_to_pay_spec (s : Store) (lo hi : Nat) (seg : Segment) :
    ((get_overview_metrics s lo hi seg).conversion_to_pay
        = (if (get_overview_metrics s lo hi seg).active_users = 0 then 0
           else match seg with
             | Segment.paying => 1
             | Segment.non_paying => 0
             | Segment.all =>
                 (paying_active_users_count s lo hi : Rat)
                   / ((get_overview_metrics s lo hi seg).active_users : Rat)))
      ∧ 0 ≤ (get_overview_metrics s lo hi seg).conversion_to_pay
      ∧ (get_overview_metrics s lo hi seg).conversion_to_pay ≤ 1 := by
  have hle := paying_active_le_active s lo hi
  rw [overview_conversion_def, overview_active_def]
  by_cases h0 : active_users_count s lo hi seg = 0
  · simp [h0]
  · cases seg with
    | all =>
      have hpos : (0 : Rat) < (active_users_count s lo hi Segment.all : Rat) := by
        rw [Nat.cast_pos]
        omega
      have hnn : (0 : Rat) ≤ (paying_active_users_count s lo hi : Rat) := by positivity
      refine ⟨by simp [h0], ?_, ?_⟩
      · rw [if_neg h0, if_pos rfl]
        positivity
      · rw [if_neg h0, if_pos rfl]
        rw [div_le_one hpos]
        exact_mod_cast hle
    | paying => simp [h0]
    | non_paying => simp [h0]

/-- C6: over any window, `new_users` for segment `all` equals the sum of
`new_users` for `paying` and for `non_paying`: the paying predicate splits
the (never-null) `User.id` values into a disjoint, total partition. -/
theorem new_users_partition (s : Store) (lo hi : Nat) :
    new_users_count s lo hi Segment.all
      = new_users_count s lo hi Segment.paying
        + new_users_count s lo hi Segment.non_paying := by
  unfold new_users_count
  have hall : (s.users.filter (fun u => in_window lo hi u.created_at
      && apply_filter (segment_clause Segment.all (paying_user_ids_subquery s)) (some u.id)))
      = s.users.filter (fun u => in_window lo hi u.created_at) :=
    List.filter_congr (fun u _ => by simp [segment_clause, apply_filter])
  have hpay : (s.users.filter (fun u => in_window lo hi u.created_at
      && apply_filter (segment_clause Segment.paying (paying_user_ids_subquery s)) (some u.id)))
      = s.users.filter (fun u => in_window lo hi u.created_at
          && (paying_user_ids_subquery s).contains u.id) :=
    List.filter_congr (fun u _ => by simp [segment_clause, apply_filter, inSql])
  have hnon : (s.users.filter (fun u => in_window lo hi u.created_at
      && apply_filter (segment_clause Segment.non_paying (paying_user_ids_subquery s)) (some u.id)))
      = s.users.filter (fun u => in_window lo hi u.created_at
          && !((paying_user_ids_subquery s).contains u.id)) :=
    List.filter_congr (fun u _ => by simp [segment_clause, apply_filter, notInSql_some])
  rw [hall, hpay, hnon]
  exact (length_filter_partition s.users _ _).symm

/-- C7: with an empty window (`hi ≤ lo`) or a window containing no user and
no event row, every overview metric is 0 and the conversion is 0.0, for
every segment, with no error. -/
theorem overview_empty_window (s : Store) (lo hi : Nat) (seg : Segment)
    (h : hi ≤ lo
      ∨ ((∀ u ∈ s.users, ¬(lo ≤ u.created_at ∧ u.created_at < hi))
          ∧ (∀ e ∈ s.event_log, ¬(lo ≤ e.created_at ∧ e.created_at < hi)))) :
    get_overview_metrics s lo hi seg
      = { new_users := 0, active_users := 0, jobs_started := 0,
          jobs_succeeded := 0, jobs_failed := 0, conversion_to_pay := 0 } := by
  have hu : ∀ u ∈ s.users, in_window lo hi u.created_at = false := by
    intro u hu2
    rw [Bool.eq_false_iff, Ne, in_window_iff]
    rcases h with h | ⟨h1, _⟩
    · omega
    · exact h1 u hu2
  have he : ∀ e ∈ s.event_log, in_window lo hi e.created_at = false := by
    intro e he2
    rw [Bool.eq_false_iff, Ne, in_window_iff]
    rcases h with h | ⟨_, h2⟩
    · omega
    · exact h2 e he2
  have hnew : new_users_count s lo hi seg = 0 := by
    unfold new_users_count
    rw [List.length_eq_zero, List.filter_eq_nil_iff]
    intro u hu2
    simp [hu u hu2]
  have hact : ∀ sg, active_users_count s lo hi sg = 0 := by
    intro sg
    unfold active_users_count active_user_ids
    have hfil : (s.event_log.filter
        (fun e => in_window lo hi e.created_at && e.user_id.isSome
          && apply_filter (segment_clause sg (paying_user_ids_subquery s)) e.user_id)) = [] := by
      rw [List.filter_eq_nil_iff]
      intro e he2
      simp [he e he2]
    rw [hfil]
    rfl
  have hjob : ∀ names, job_event_count s lo hi seg names = 0 := by
    intro names
    unfold job_event_count
    rw [List.length_eq_zero, List.filter_eq_nil_iff]
    intro e he2
    simp [he e he2]
  unfold get_overview_metrics jobs_started_count jobs_succeeded_count jobs_failed_count
  simp [hnew, hact, hjob]

/-- An empty store for the empty-window witness. -/
def emptyStore : Store := ⟨[], [], [], []⟩

/-- Witness for C7: the theorem applied to the empty store and the window
`[0, 1)`. -/
theorem overview_empty_window_witness :
    get_overview_metrics emptyStore 0 1 Segment.all
      = { new_users := 0, active_users := 0, jobs_started := 0,
          jobs_succeeded := 0, jobs_failed := 0, conversion_to_pay := 0 } :=
  overview_empty_window emptyStore 0 1 Segment.all
    (Or.inr ⟨by simp [emptyStore], by simp [emptyStore]⟩)

/-- The conversion policy of the funnel, as the spec states it: 0.0 when
the previous count is 0, otherwise current over previous. -/
def step_ratio (prev cur : Nat) : Rat :=
  if prev = 0 then 0 else (cur : Rat) / (prev : Rat)

/-- The first funnel step always gets conversion 1.0. -/
theorem funnel_walk_first (cnt : String → Nat) (ev : String) (rest : List String) :
    funnel_walk cnt (ev :: rest) none
      = { event := ev, count := cnt ev, conversion_from_prev := 1 }
        :: funnel_walk cnt rest (some (cnt ev)) := by
  simp [funnel_walk]

/-- A later funnel step gets the zero-guarded ratio to its predecessor. -/
theorem funnel_walk_cons (cnt : String → Nat) (ev : String) (rest : List String) (p : Nat) :
    funnel_walk cnt (ev :: rest) (some p)
      = { event := ev, count := cnt ev, conversion_from_prev := step_ratio p (cnt ev) }
        :: funnel_walk cnt rest (some (cnt ev)) := by
  cases p <;> simp [funnel_walk, step_ratio]

/-- C3: the funnel is the five fixed steps in their fixed order, each
carrying the distinct-user count of its event in the window; the first
step's conversion is exactly 1.0 (even at count 0), a step after a
zero-count step gets 0.0, and otherwise conversion is current count over
previous count, unclamped. -/
theorem get_funnel_spec (s : Store) (lo hi : Nat) (seg : Segment) :
    get_funnel s lo hi seg
      = [ { event := "upload_started",
            count := funnel_count s lo hi seg "upload_started",
            conversion_from_prev := 1 },
          { event := "face_analysis_success",
            count := funnel_count s lo hi seg "face_analysis_success",
            conversion_from_prev :=
              step_ratio (funnel_count s lo hi seg "upload_started")
                (funnel_count s lo hi seg "face_analysis_success") },
          { event := "llm_core_generation_success",
            count := funnel_count s lo hi seg "llm_core_generation_success",
            conversion_from_prev :=
              step_ratio (funnel_count s lo hi seg "face_analysis_success")
                (funnel_count s lo hi seg "llm_core_generation_success") },
          { event := "llm_image_prompt_success",
            count := funnel_count s lo hi seg "llm_image_prompt_success",
            conversion_from_prev :=
              step_ratio (funnel_count s lo hi seg "llm_core_generation_success")
                (funnel_count s lo hi seg "llm_image_prompt_success") },
          { event := "image_generation_success",
            count := funnel_count s lo hi seg "image_generation_success",
            conversion_from_prev :=
              step_ratio (funnel_count s lo hi seg "llm_image_prompt_success")
                (funnel_count s lo hi seg "image_generation_success") } ] := by
  unfold get_funnel FUNNEL_STEPS
  rw [funnel_walk_first, funnel_walk_cons, funnel_walk_cons, funnel_walk_cons,
    funnel_walk_cons]
  rfl

/-- The paying-user predicate in the words of the spec and of claim C2:
verified IAP transaction, or ledger entry whose type *starts with* the
six characters `topup_` with positive delta. -/
def spec_paying_user (s : Store) (u : Nat) : Prop :=
  (∃ t ∈ s.iap_transactions, t.user_id = u ∧ t.status = "verified")
  ∨ (∃ c ∈ s.credit_ledger, c.user_id = u
      ∧ "topup_".toList.isPrefixOf c.type.toList = true ∧ 0 < c.delta)

/-- A store whose only paying signal is a ledger entry of type `topupX`:
it matches `LIKE 'topup_%'` (the `_` is a wildcard) without starting with
the literal `topup_`. -/
def c2store : Store :=
  { users := []
    credit_ledger := [{ id := 1, user_id := 7, type := "topupX", delta := 1,
                        ref_type := none, ref_id := none, created_at := 0 }]
    iap_transactions := []
    event_log := [] }

/-- Counterexample to C2 as stated: user 7 is in the computed paying set
although no ledger entry's type starts with `topup_`. -/
theorem paying_user_ids_cex :
    7 ∈ paying_user_ids_subquery c2store ∧ ¬ spec_paying_user c2store 7 := by
  constructor
  · decide
  · intro h
    rcases h with h | h
    · revert h
      decide
    · revert h
      decide

/-- C2 amended: membership of the computed paying set is exactly: some
verified IAP transaction, or some positive-delta ledger entry whose type
matches `LIKE 'topup_%'`, i.e. starts with `topup` followed by at least
one arbitrary character.  The set is a function of the full store only
(no window argument exists), and a user with neither signal is absent. -/
theorem paying_user_ids_characterization (s : Store) (u : Nat) :
    u ∈ paying_user_ids_subquery s
      ↔ ((∃ t ∈ s.iap_transactions, t.user_id = u ∧ t.status = "verified")
         ∨ (∃ c ∈ s.credit_ledger, c.user_id = u
              ∧ ("topup".toList <+: c.type.toList ∧ 6 ≤ c.type.toList.length)
              ∧ 0 < c.delta)) := by
  unfold paying_user_ids_subquery
  rw [List.mem_dedup, List.mem_append]
  simp only [List.mem_map, List.mem_filter, Bool.and_eq_true, beq_iff_eq,
    decide_eq_true_eq, sqlLike_topup]
  constructor
  · rintro (⟨t, ⟨ht, hst⟩, hu⟩ | ⟨c, ⟨hc, hlike, hd⟩, hu⟩)
    · exact Or.inl ⟨t, ht, hu, hst⟩
    · exact Or.inr ⟨c, hc, hu, hlike, hd⟩
  · rintro (⟨t, ht, hu, hst⟩ | ⟨c, hc, hu, hlike, hd⟩)
    · exact Or.inl ⟨t, ⟨ht, hst⟩, hu⟩
    · exact Or.inr ⟨c, ⟨hc, hlike, hd⟩, hu⟩

/-- The number of in-window rows of a job-event list carrying no user id
(counted by segment `all` only). -/
def null_user_job_rows (s : Store) (lo hi : Nat) (names : List String) : Nat :=
  (s.event_log.filter (fun e => in_window lo hi e.created_at
    && names.contains e.event && e.user_id.isNone)).length

/-- `NOT IN` over a non-empty subquery keeps out a NULL column. -/
theorem notInSql_none_of_ne_nil {ids : List Nat} (h : ids ≠ []) :
    notInSql none ids = false := by
  cases ids with
  | nil => exact absurd rfl h
  | cons a t => simp [notInSql]

/-- Three-way split of a job-event row count, valid whenever the paying-id
set is non-empty. -/
theorem job_count_partition (s : Store) (lo hi : Nat) (names : List String)
    (h : paying_user_ids_subquery s ≠ []) :
    job_event_count s lo hi Segment.all names
      = job_event_count s lo hi Segment.paying names
        + job_event_count s lo hi Segment.non_paying names
        + null_user_job_rows s lo hi names := by
  unfold job_event_count null_user_job_rows
  have hall : (s.event_log.filter (fun e => in_window lo hi e.created_at
      && names.contains e.event
      && apply_filter (segment_clause Segment.all (paying_user_ids_subquery s)) e.user_id))
      = s.event_log.filter
          (fun e => in_window lo hi e.created_at && names.contains e.event) :=
    List.filter_congr (fun e _ => by simp [segment_clause, apply_filter])
  have hpay : (s.event_log.filter (fun e => in_window lo hi e.created_at
      && names.contains e.event
      && apply_filter (segment_clause Segment.paying (paying_user_ids_subquery s)) e.user_id))
      = s.event_log.filter
          (fun e => ((in_window lo hi e.created_at && names.contains e.event)
            && e.user_id.isSome) && inSql e.user_id (paying_user_ids_subquery s)) :=
    List.filter_congr (fun e _ => by
      cases hu : e.user_id <;>
        simp [segment_clause, apply_filter, inSql, hu])
  have hnon : (s.event_log.filter (fun e => in_window lo hi e.created_at
      && names.contains e.event
      && apply_filter (segment_clause Segment.non_paying (paying_user_ids_subquery s)) e.user_id))
      = s.event_log.filter
          (fun e => ((in_window lo hi e.created_at && names.contains e.event)
            && e.user_id.isSome) && !(inSql e.user_id (paying_user_ids_subquery s))) :=
    List.filter_congr (fun e _ => by
      cases hu : e.user_id with
      | none => simp [segment_clause, apply_filter, notInSql_none_of_ne_nil h, hu]
      | some v => simp [segment_clause, apply_filter, inSql, notInSql_some, hu])
  have hnull : (s.event_log.filter (fun e => in_window lo hi e.created_at
      && names.contains e.event && e.user_id.isNone))
      = s.event_log.filter
          (fun e => (in_window lo hi e.created_at && names.contains e.event)
            && !(e.user_id.isSome)) :=
    List.filter_congr (fun e _ => by cases hu : e.user_id <;> simp [hu])
  rw [hall, hpay, hnon, hnull]
  have h2 := length_filter_partition s.event_log
    (fun e => (in_window lo hi e.created_at && names.contains e.event)
      && e.user_id.isSome)
    (fun e => inSql e.user_id (paying_user_ids_subquery s))
  have h1 := length_filter_partition s.event_log
    (fun e => in_window lo hi e.created_at && names.contains e.event)
    (fun e => e.user_id.isSome)
  rw [h2]
  exact h1.symm

/-- A store with a single null-user `job_failed` event and no paying
signal at all. -/
def c10store : Store :=
  { users := [], credit_ledger := [], iap_transactions := []
    event_log := [{ id := 1, created_at := 5, trace_id := none, user_id := none,
                    job_id := none, event := "job_failed", payload := none }] }

/-- Counterexample to C10 as stated: with an empty paying set, SQL
`NOT IN (empty subquery)` is TRUE even for a NULL user id, so the
null-user row is counted by `non_paying` too and the claimed equation
fails. -/
theorem jobs_partition_cex :
    ¬ (jobs_failed_count c10store 0 10 Segment.all
        = jobs_failed_count c10store 0 10 Segment.paying
          + jobs_failed_count c10store 0 10 Segment.non_paying
          + null_user_job_rows c10store 0 10 JOB_FAILED_EVENTS) := by
  decide

/-- C10 amended: whenever the paying-id set is non-empty, each job metric
under `all` equals its `paying` value plus its `non_paying` value plus the
number of in-window matching rows with a null user id (those rows are then
excluded by both segment filters; with an empty paying set the `non_paying`
filter would also admit them). -/
theorem jobs_partition_with_null (s : Store) (lo hi : Nat)
    (h : paying_user_ids_subquery s ≠ []) :
    (jobs_started_count s lo hi Segment.all
        = jobs_started_count s lo hi Segment.paying
          + jobs_started_count s lo hi Segment.non_paying
          + null_user_job_rows s lo hi JOB_STARTED_EVENTS)
    ∧ (jobs_succeeded_count s lo hi Segment.all
        = jobs_succeeded_count s lo hi Segment.paying
          + jobs_succeeded_count s lo hi Segment.non_paying
          + null_user_job_rows s lo hi JOB_SUCCEEDED_EVENTS)
    ∧ (jobs_failed_count s lo hi Segment.all
        = jobs_failed_count s lo hi Segment.paying
          + jobs_failed_count s lo hi Segment.non_paying
          + null_user_job_rows s lo hi JOB_FAILED_EVENTS) :=
  ⟨job_count_partition s lo hi JOB_STARTED_EVENTS h,
   job_count_partition s lo hi JOB_SUCCEEDED_EVENTS h,
   job_count_partition s lo hi JOB_FAILED_EVENTS h⟩

/-- A store with one verified purchase (user 4), one null-user failed job
row and one started row of user 4. -/
def w10store : Store :=
  { users := [], credit_ledger := []
    iap_transactions := [{ id := 1, user_id := 4, store := "play",
                           product_id := none, purchase_token := none,
                           status := "verified", raw_payload := none,
                           created_at := 0, verified_at := none }]
    event_log := [{ id := 1, created_at := 5, trace_id := none, user_id := none,
                    job_id := none, event := "job_failed", payload := none },
                  { id := 2, created_at := 6, trace_id := none, user_id := some 4,
                    job_id := none, event := "generate_requested", payload := none }] }

/-- Witness for the amended C10 at a concrete store with a non-empty
paying set. -/
theorem jobs_partition_with_null_witness :
    paying_user_ids_subquery w10store ≠ []
      ∧ jobs_started_count w10store 0 10 Segment.all
          = jobs_started_count w10store 0 10 Segment.paying
            + jobs_started_count w10store 0 10 Segment.non_paying
            + null_user_job_rows w10store 0 10 JOB_STARTED_EVENTS :=
  ⟨by decide, (jobs_partition_with_null w10store 0 10 (by decide)).1⟩

/-- C8: `get_user_detail` returns `none` exactly when no user row has the
requested id (a total function: absence is a value, not an exception),
and otherwise returns that user's record decorated with the derived
paying flag. -/
theorem get_user_detail_spec (s : Store) (uid : Nat) :
    (get_user_detail s uid = none ↔ ∀ u ∈ s.users, u.id ≠ uid)
    ∧ (∀ r, get_user_detail s uid = some r →
        (∃ u ∈ s.users, u.id = uid
            ∧ r = user_summary (paying_user_ids_subquery s) u)
          ∧ r.paying = (paying_user_ids_subquery s).contains uid) := by
  constructor
  · simp [get_user_detail, List.find?_eq_none]
  · intro r hr
    unfold get_user_detail at hr
    rcases ho : s.users.find? (fun u => u.id == uid) with _ | u
    · rw [ho] at hr
      simp at hr
    · rw [ho] at hr
      simp only [Option.map_some', Option.some.injEq] at hr
      have hmem := List.mem_of_find?_eq_some ho
      have hpu := List.find?_some ho
      simp only [beq_iff_eq] at hpu
      refine ⟨⟨u, hmem, hpu, hr.symm⟩, ?_⟩
      rw [← hr]
      simp [user_summary, hpu]

/-- A store holding the single user 3, for the not-found witness. -/
def w8store : Store :=
  { users := [{ id := 3, created_at := 1, install_id_hash := none,
                google_sub := none, credits_balance := 0,
                merged_into_user_id := none, last_seen_at := none }]
    credit_ledger := [], iap_transactions := [], event_log := [] }

/-- Witness for C8: looking up the missing user 5 yields the absence
marker. -/
theorem get_user_detail_spec_witness : get_user_detail w8store 5 = none :=
  (get_user_detail_spec w8store 5).1.mpr (by decide)

/-- C9: the paginated listings (users, a user's events, credits, IAP
transactions) come sorted by creation timestamp descending, while the
trace and job timelines come sorted ascending. -/
theorem listings_sorted (s : Store) (seg : Segment) (q : Option String)
    (lim off uid : Nat) (lo hi : Option Nat) (tid jid : Option String)
    (tr jb : String) :
    ((get_users s seg q lim off).2).Pairwise (fun x y => y.created_at ≤ x.created_at)
    ∧ ((get_user_events s uid lo hi tid jid lim off).2).Pairwise
        (fun x y => y.created_at ≤ x.created_at)
    ∧ (get_user_credits s uid lo hi).Pairwise (fun x y => y.created_at ≤ x.created_at)
    ∧ (get_user_iap s uid lo hi).Pairwise (fun x y => y.created_at ≤ x.created_at)
    ∧ (get_trace_events s tr).Pairwise (fun x y => x.created_at ≤ y.created_at)
    ∧ (get_job_events s jb).Pairwise (fun x y => x.created_at ≤ y.created_at) := by
  refine ⟨?_, ?_, ?_, ?_, ?_, ?_⟩
  · simp only [get_users]
    exact List.pairwise_map.mpr
      (pairwise_page (pairwise_sort_desc (fun u : UserRow => u.created_at) _) _ _)
  · simp only [get_user_events]
    exact pairwise_page (pairwise_sort_desc (fun e : EventRow => e.created_at) _) _ _
  · exact pairwise_sort_desc (fun c : CreditRow => c.created_at) _
  · exact pairwise_sort_desc (fun t : IapRow => t.created_at) _
  · exact pairwise_sort_asc (fun e : EventRow => e.created_at) _
  · exact pairwise_sort_asc (fun e : EventRow => e.created_at) _

/-- First scenario row: `job_failed` with an `error_type` and no
`error_message`. -/
def c4rowA : EventRow :=
  { id := 1, created_at := 1, trace_id := none, user_id := none, job_id := none,
    event := "job_failed", payload := some [("error_type", some "Timeout")] }

/-- Second scenario row: same event and `error_type`, but with
`error_message` present. -/
def c4rowB : EventRow :=
  { id := 2, created_at := 2, trace_id := none, user_id := none, job_id := none,
    event := "job_failed",
    payload := some [("error_type", some "Timeout"), ("error_message", some "x")] }

/-- The two-row scenario store of the spec's error-grouping example. -/
def c4store : Store :=
  { users := [], credit_ledger := [], iap_transactions := []
    event_log := [c4rowA, c4rowB] }

/-- C4: `get_errors` selects exactly the in-window rows whose event name
contains `failed` case-insensitively or whose payload carries a non-null
`error_type` or `error_message`; it groups them by the exact triple
(event, error_type, error_message) with nulls as distinct key values:
group keys are pairwise distinct, each group counts precisely the
selected rows with its key, every selected row has a group, and the
two-row scenario (null versus `"x"` message) yields two groups of
count 1. -/
theorem get_errors_grouping :
    (∀ (s : Store) (lo hi : Nat),
      (∀ e, e ∈ error_rows s lo hi ↔
        (e ∈ s.event_log ∧ (lo ≤ e.created_at ∧ e.created_at < hi)
          ∧ ("failed".toList <:+: e.event.toList.map Char.toLower
             ∨ (jget e.payload "error_type").isSome = true
             ∨ (jget e.payload "error_message").isSome = true)))
      ∧ ((error_groups_all s lo hi).map group_key).Nodup
      ∧ (∀ g ∈ error_groups_all s lo hi,
          g.count = ((error_rows s lo hi).filter
            (fun e => decide (errKey e = group_key g))).length)
      ∧ (∀ e ∈ error_rows s lo hi,
          ∃ g ∈ error_groups_all s lo hi, group_key g = errKey e))
    ∧ (error_groups_all c4store 0 10).map (fun g => (group_key g, g.count))
        = [(("job_failed", some "Timeout", none), 1),
           (("job_failed", some "Timeout", some "x"), 1)] := by
  refine ⟨fun s lo hi => ⟨?_, ?_, ?_, ?_⟩, by decide⟩
  · intro e
    unfold error_rows is_error_event
    rw [List.mem_filter]
    simp only [Bool.and_eq_true, Bool.or_eq_true, in_window, decide_eq_true_eq,
      sqlIlike_failed]
    tauto
  · unfold error_groups_all
    rw [List.map_map]
    have hcomp : ∀ k ∈ ((error_rows s lo hi).map errKey).dedup,
        (group_key ∘ mk_error_group (error_rows s lo hi)) k = id k :=
      fun k _ => rfl
    rw [List.map_congr_left hcomp, List.map_id]
    exact List.nodup_dedup _
  · intro g hg
    unfold error_groups_all at hg
    rw [List.mem_map] at hg
    obtain ⟨k, _, hgk⟩ := hg
    subst hgk
    rfl
  · intro e he
    unfold error_groups_all
    exact ⟨_, List.mem_map.mpr
      ⟨errKey e, by rw [List.mem_dedup]; exact List.mem_map_of_mem _ he, rfl⟩, rfl⟩

/-- Witness for C4: the first scenario row qualifies. -/
theorem get_errors_grouping_witness : c4rowA ∈ error_rows c4store 0 10 :=
  ((get_errors_grouping.1 c4store 0 10).1 c4rowA).mpr (by decide)

/-- C5: the total of `get_errors` is the number of qualifying rows in the
window, for every limit; the returned page is a prefix of the full
count-descending ordering of all groups (so a smaller limit only
truncates further), the page is ordered by descending count, and the full
ordering is a permutation of the unlimited grouping (stable top-K). -/
theorem get_errors_topk (s : Store) (lo hi l1 l2 : Nat) (h : l1 ≤ l2) :
    (get_errors s lo hi l1).1 = (error_rows s lo hi).length
    ∧ (get_errors s lo hi l1).1 = (get_errors s lo hi l2).1
    ∧ (get_errors s lo hi l1).2 = ((get_errors s lo hi l2).2).take l1
    ∧ ((get_errors s lo hi l1).2).Pairwise (fun g1 g2 => g2.count ≤ g1.count)
    ∧ (error_groups_sorted s lo hi).Perm (error_groups_all s lo hi)
    ∧ (get_errors s lo hi l1).2 = (error_groups_sorted s lo hi).take l1 := by
  refine ⟨rfl, rfl, ?_, ?_, ?_, rfl⟩
  · show (error_groups_sorted s lo hi).take l1
      = ((error_groups_sorted s lo hi).take l2).take l1
    rw [List.take_take, min_eq_left h]
  · show ((error_groups_sorted s lo hi).take l1).Pairwise
      (fun g1 g2 => g2.count ≤ g1.count)
    unfold error_groups_sorted
    exact List.Pairwise.sublist (List.take_sublist _ _)
      (pairwise_sort_desc (fun g : ErrorGroup => g.count) _)
  · unfold error_groups_sorted
    exact List.perm_insertionSort _ _

/-- Store for the C5 witness: two distinct error keys, one of them twice. -/
def c5store : Store :=
  { users := [], credit_ledger := [], iap_transactions := []
    event_log := [
      { id := 1, created_at := 1, trace_id := none, user_id := none, job_id := none,
        event := "job_failed", payload := none },
      { id := 2, created_at := 2, trace_id := none, user_id := none, job_id := none,
        event := "job_failed", payload := none },
      { id := 3, created_at := 3, trace_id := none, user_id := none, job_id := none,
        event := "upload_failed", payload := none } ] }

/-- Witness for C5: at the concrete store, with limits 1 ≤ 2, the total is
the qualifying-row count. -/
theorem get_errors_topk_witness :
    (get_errors c5store 0 10 1).1 = (error_rows c5store 0 10).length :=
  (get_errors_topk c5store 0 10 1 2 (by decide)).1
